import Mathlib

/-
Formal model of the support-chat router implemented in src/support_system.py.

Modelling conventions:
* Python strings are modelled as lists of characters (abbrev Str below), so
  that the Python operations strip, lower, split and startswith become
  structurally recursive Lean functions with Python semantics.
* The external language-model call (genai generate_content) is modelled as an
  input of type Except Str Str: Except.error e is any raised exception with
  detail e (caught by the try/except blocks in the source), Except.ok t is a
  successful call whose response.text is t.
* Each Python method is translated to a Lean function on explicit state.  The
  specialist process_query methods contain no assignment to self.context, so
  they return only their HandlerResult; TriageAgent.process_query assigns
  issue_type and appends to previous_queries, so it returns the updated
  context as well.  To reason about which simulated tool effects ran, a
  HandlerResult also records the name of the invoked tool, if any.
* self.context is always set by SupportSystem.__init__ before any query is
  processed, so the context parameter is passed directly (never None).
-/

abbrev Str := List Char

/-- Python str.strip with no arguments: drop whitespace from both ends. -/
def pyStrip (s : Str) : Str :=
  ((s.dropWhile Char.isWhitespace).reverse.dropWhile Char.isWhitespace).reverse

/-- Python str.lower, restricted to the characters the program compares. -/
def pyLower (s : Str) : Str :=
  s.map Char.toLower

/-- Python str.split(sep) for a one-character separator: splits at every
occurrence of the separator, keeping empty segments, so the result always has
one more element than the number of separators. -/
def pySplit (sep : Char) : Str → List Str
  | [] => [[]]
  | c :: cs =>
    let rest := pySplit sep cs
    if c = sep then [] :: rest
    else (c :: rest.headD []) :: rest.tail

/-- Python s.startswith(pat), as pyStartsWith pat s. -/
def pyStartsWith : Str → Str → Bool
  | [], _ => true
  | _ :: _, [] => false
  | p :: ps, c :: cs => p == c && pyStartsWith ps cs

/-- UserContext (support_system.py lines 19-23). -/
structure UserContext where
  name : Str
  is_premium_user : Bool
  issue_type : Option Str
  previous_queries : List Str
deriving DecidableEq

/-- The context a fresh UserContext() carries (default field values). -/
def defaultContext : UserContext :=
  ⟨"Guest".data, false, none, []⟩

/-- The values of the IssueType enum (lines 26-29), in declaration order. -/
def validCategories : List Str :=
  ["billing".data, "technical".data, "general".data]

/-- The dictionary returned by TriageAgent.process_query (lines 85-88). -/
structure TriageResult where
  issue_type : Str
  message : Str
deriving DecidableEq

/-- TriageAgent.process_query (lines 55-88).  The classifier call and the
validation of its text sit inside one try/except whose handler sets the
category to general; an unrecognized token is likewise replaced by general.
The context update appends the query and records the resolved category. -/
def TriageAgent.process_query (ctx : UserContext) (query : Str)
    (resp : Except Str Str) : UserContext × TriageResult :=
  let issue_type :=
    match resp with
    | Except.error _ => "general".data
    | Except.ok text =>
      let it := pyLower (pyStrip text)
      if it ∈ validCategories then it else "general".data
  let ctx2 := UserContext.mk ctx.name ctx.is_premium_user (some issue_type)
    (ctx.previous_queries ++ [query])
  (ctx2,
   ⟨issue_type,
    "Your query has been categorized as: ".data ++ issue_type
      ++ ". Transferring you to the ".data ++ issue_type ++ " specialist.".data⟩)

/-- Result of one specialist process_query call: the returned string, plus
the name of the tool whose simulated effect was invoked, if any. -/
structure HandlerResult where
  response : Str
  invoked : Option Str
deriving DecidableEq

/-- The tool-name extraction shared verbatim by the three specialists
(lines 145, 221, 284): response_text.split(":")[1].strip().  The index [1]
exists exactly when the split has at least two segments; a missing index
would raise IndexError, modelled as the none branch at each use site. -/
def extract_tool_name (response_text : Str) : Option Str :=
  match pySplit ':' response_text with
  | _ :: seg :: _ => some (pyStrip seg)
  | _ => none

/-- BillingAgent.process_refund (lines 156-158): simulated effect. -/
def BillingAgent.process_refund (_query : Str) : Str :=
  "Your refund has been processed successfully. It will reflect in your account within 5-7 business days.".data

/-- BillingAgent.explain_charges (lines 160-162): simulated effect. -/
def BillingAgent.explain_charges (_query : Str) : Str :=
  "Your recent charge of $49.99 is for your monthly subscription. This includes access to all premium features.".data

/-- BillingAgent.update_subscription (lines 164-166): simulated effect. -/
def BillingAgent.update_subscription (_query : Str) : Str :=
  "Your subscription has been updated successfully. Your new plan will take effect in the next billing cycle.".data

/-- The billing tool registry (lines 97-110): name, description, function,
in dictionary insertion order. -/
def BillingAgent.tools : List (Str × Str × (Str → Str)) :=
  [("process_refund".data, ("Process a refund for the user".data, BillingAgent.process_refund)),
   ("explain_charges".data, ("Explain recent charges on the user\x27s account".data, BillingAgent.explain_charges)),
   ("update_subscription".data, ("Update the user\x27s subscription plan".data, BillingAgent.update_subscription))]

/-- BillingAgent.is_tool_enabled (lines 120-123).  self.context is always
set in the running system, so the truthiness test on it is elided. -/
def BillingAgent.is_tool_enabled (ctx : UserContext) (tool_name : Str) : Bool :=
  if tool_name = "process_refund".data then ctx.is_premium_user else true

/-- BillingAgent.get_available_tools (lines 112-118). -/
def BillingAgent.get_available_tools (ctx : UserContext) : List Str :=
  (BillingAgent.tools.map Prod.fst).filter (fun n => BillingAgent.is_tool_enabled ctx n)

/-- The fixed billing refusal string (line 150). -/
def billingRefusal : Str :=
  "I\x27m sorry, that action is not available for your account.".data

/-- BillingAgent.process_query (lines 125-154).  The except branch catches
any exception, including the IndexError a missing split index would raise. -/
def BillingAgent.process_query (ctx : UserContext) (query : Str)
    (resp : Except Str Str) : HandlerResult :=
  match resp with
  | Except.error e =>
    ⟨"I apologize, I encountered an error processing your billing request: ".data ++ e, none⟩
  | Except.ok text =>
    let response_text := pyStrip text
    if pyStartsWith ("TOOL:".data) response_text then
      match extract_tool_name response_text with
      | some tool_name =>
        match BillingAgent.tools.lookup tool_name with
        | some tool_info =>
          if BillingAgent.is_tool_enabled ctx tool_name then
            ⟨"Used ".data ++ tool_name ++ ": ".data ++ tool_info.2 query, some tool_name⟩
          else ⟨billingRefusal, none⟩
        | none => ⟨billingRefusal, none⟩
      | none =>
        ⟨"I apologize, I encountered an error processing your billing request: ".data
          ++ "list index out of range".data, none⟩
    else ⟨response_text, none⟩

/-- TechnicalAgent.restart_service (lines 232-234): simulated effect. -/
def TechnicalAgent.restart_service (_query : Str) : Str :=
  "The service has been restarted successfully. Please allow a few minutes for it to become fully operational.".data

/-- TechnicalAgent.reset_password (lines 236-238): simulated effect. -/
def TechnicalAgent.reset_password (_query : Str) : Str :=
  "A password reset link has been sent to your email. Please check your inbox and follow the instructions.".data

/-- TechnicalAgent.check_status (lines 240-242): simulated effect. -/
def TechnicalAgent.check_status (_query : Str) : Str :=
  "All systems are operational. No outages reported at this time.".data

/-- The technical tool registry (lines 175-188). -/
def TechnicalAgent.tools : List (Str × Str × (Str → Str)) :=
  [("restart_service".data, ("Restart a service for the user".data, TechnicalAgent.restart_service)),
   ("reset_password".data, ("Reset the user\x27s password".data, TechnicalAgent.reset_password)),
   ("check_status".data, ("Check the status of services".data, TechnicalAgent.check_status))]

/-- TechnicalAgent.is_tool_enabled (lines 197-200). -/
def TechnicalAgent.is_tool_enabled (ctx : UserContext) (tool_name : Str) : Bool :=
  if tool_name = "restart_service".data then
    decide (ctx.issue_type = some ("technical".data))
  else true

/-- TechnicalAgent.get_available_tools (lines 190-195). -/
def TechnicalAgent.get_available_tools (ctx : UserContext) : List Str :=
  (TechnicalAgent.tools.map Prod.fst).filter (fun n => TechnicalAgent.is_tool_enabled ctx n)

/-- The fixed technical refusal string (line 226). -/
def technicalRefusal : Str :=
  "I\x27m sorry, that action is not available for your account or issue type.".data

/-- TechnicalAgent.process_query (lines 202-230). -/
def TechnicalAgent.process_query (ctx : UserContext) (query : Str)
    (resp : Except Str Str) : HandlerResult :=
  match resp with
  | Except.error e =>
    ⟨"I apologize, I encountered an error processing your technical request: ".data ++ e, none⟩
  | Except.ok text =>
    let response_text := pyStrip text
    if pyStartsWith ("TOOL:".data) response_text then
      match extract_tool_name response_text with
      | some tool_name =>
        match TechnicalAgent.tools.lookup tool_name with
        | some tool_info =>
          if TechnicalAgent.is_tool_enabled ctx tool_name then
            ⟨"Used ".data ++ tool_name ++ ": ".data ++ tool_info.2 query, some tool_name⟩
          else ⟨technicalRefusal, none⟩
        | none => ⟨technicalRefusal, none⟩
      | none =>
        ⟨"I apologize, I encountered an error processing your technical request: ".data
          ++ "list index out of range".data, none⟩
    else ⟨response_text, none⟩

/-- GeneralAgent.provide_info (lines 295-297): simulated effect. -/
def GeneralAgent.provide_info (_query : Str) : Str :=
  "Our company provides a range of services designed to meet your needs. For more specific information, please visit our website or contact our support team.".data

/-- GeneralAgent.escalate_issue (lines 299-301): simulated effect. -/
def GeneralAgent.escalate_issue (_query : Str) : Str :=
  "Your issue has been escalated to a human representative. They will contact you within 24 hours.".data

/-- The general tool registry (lines 251-260). -/
def GeneralAgent.tools : List (Str × Str × (Str → Str)) :=
  [("provide_info".data, ("Provide general information about services".data, GeneralAgent.provide_info)),
   ("escalate_issue".data, ("Escalate the issue to a human representative".data, GeneralAgent.escalate_issue))]

/-- GeneralAgent.get_available_tools (lines 262-263): no gating. -/
def GeneralAgent.get_available_tools : List Str :=
  GeneralAgent.tools.map Prod.fst

/-- The fixed general refusal string (line 289). -/
def generalRefusal : Str :=
  "I\x27m sorry, that action is not available.".data

/-- GeneralAgent.process_query (lines 265-293): membership in the registry
is the only check, there is no is_tool_enabled gate. -/
def GeneralAgent.process_query (_ctx : UserContext) (query : Str)
    (resp : Except Str Str) : HandlerResult :=
  match resp with
  | Except.error e =>
    ⟨"I apologize, I encountered an error processing your request: ".data ++ e, none⟩
  | Except.ok text =>
    let response_text := pyStrip text
    if pyStartsWith ("TOOL:".data) response_text then
      match extract_tool_name response_text with
      | some tool_name =>
        match GeneralAgent.tools.lookup tool_name with
        | some tool_info =>
          ⟨"Used ".data ++ tool_name ++ ": ".data ++ tool_info.2 query, some tool_name⟩
        | none => ⟨generalRefusal, none⟩
      | none =>
        ⟨"I apologize, I encountered an error processing your request: ".data
          ++ "list index out of range".data, none⟩
    else ⟨response_text, none⟩

/-- The four observable positions of the SupportSystem.start loop
(lines 319-360).  awaitingTriage is the loop top with current_agent set to
triage; awaitingSpecialist is the loop top after the handoff bound the named
specialist; awaitingContinue is the inner further-assistance question asked
right after a specialist response; ended is after break. -/
inductive Phase where
  | awaitingTriage : Phase
  | awaitingSpecialist : Str → Phase
  | awaitingContinue : Str → Phase
  | ended : Phase
deriving DecidableEq

/-- The whole mutable state of a session: loop position plus UserContext. -/
structure SysState where
  phase : Phase
  context : UserContext
deriving DecidableEq

/-- Instrumentation of one loop step: whether the triage router ran, and,
when a specialist handler ran, its dictionary key and the response it
emitted. -/
structure StepTrace where
  ranTriage : Bool
  specialist : Option (Str × Str)
deriving DecidableEq

/-- The words ending the session at the top of the loop (line 327). -/
def quitWords : List Str :=
  ["quit".data, "exit".data, "bye".data]

/-- The words ending the session at the continue question (line 356). -/
def continueEndWords : List Str :=
  ["no".data, "n".data, "quit".data, "exit".data]

/-- Dispatch on self.agents[self.current_agent] for the three specialist
keys the handoff can bind (lines 342-347): any key other than billing or
technical was bound as general. -/
def agentProcess (agent : Str) (ctx : UserContext) (query : Str)
    (resp : Except Str Str) : HandlerResult :=
  if agent = "billing".data then BillingAgent.process_query ctx query resp
  else if agent = "technical".data then TechnicalAgent.process_query ctx query resp
  else GeneralAgent.process_query ctx query resp

/-- One user turn of SupportSystem.start (lines 324-360).  A turn consumes
one line of user input and, when an agent runs, one classifier outcome.
At the loop top (awaitingTriage and awaitingSpecialist) the input is
stripped and checked against quitWords before any agent runs; at the
continue question the input is stripped, lowercased and checked against
continueEndWords, and no agent runs.  A step from ended changes nothing. -/
def SupportSystem.step (st : SysState) (rawInput : Str)
    (resp : Except Str Str) : SysState × StepTrace :=
  match st.phase with
  | Phase.ended => (st, ⟨false, none⟩)
  | Phase.awaitingContinue a =>
    if pyLower (pyStrip rawInput) ∈ continueEndWords then
      (⟨Phase.ended, st.context⟩, ⟨false, none⟩)
    else
      (⟨Phase.awaitingSpecialist a, st.context⟩, ⟨false, none⟩)
  | Phase.awaitingTriage =>
    let user_input := pyStrip rawInput
    if pyLower user_input ∈ quitWords then
      (⟨Phase.ended, st.context⟩, ⟨false, none⟩)
    else
      let res := TriageAgent.process_query st.context user_input resp
      let agent :=
        if res.2.issue_type = "billing".data then "billing".data
        else if res.2.issue_type = "technical".data then "technical".data
        else "general".data
      (⟨Phase.awaitingSpecialist agent, res.1⟩, ⟨true, none⟩)
  | Phase.awaitingSpecialist a =>
    let user_input := pyStrip rawInput
    if pyLower user_input ∈ quitWords then
      (⟨Phase.ended, st.context⟩, ⟨false, none⟩)
    else
      let r := agentProcess a st.context user_input resp
      (⟨Phase.awaitingContinue a, st.context⟩, ⟨false, some (a, r.response)⟩)

/-- Folding step over a whole session: a list of turns, each a pair of the
raw user input and the outcome of the classifier call made in that turn
(ignored by turns that make no such call). -/
def SupportSystem.run (st : SysState) :
    List (Str × Except Str Str) → SysState × List StepTrace
  | [] => (st, [])
  | p :: rest =>
    let r1 := SupportSystem.step st p.1 p.2
    let r2 := SupportSystem.run r1.1 rest
    (r2.1, r1.2 :: r2.2)

/-- The state a session starts in: current_agent is triage (line 312) and
the context is UserContext() with the name and premium flag the main block
then assigns (lines 375-376). -/
def initialState (name : Str) (premium : Bool) : SysState :=
  ⟨Phase.awaitingTriage, ⟨name, premium, none, []⟩⟩

/-- The specialist a state is bound to after handoff, if any. -/
def boundSpecialist : Phase → Option Str
  | Phase.awaitingSpecialist a => some a
  | Phase.awaitingContinue a => some a
  | _ => none

/-- The query count the final summary prints (line 367):
len(self.context.previous_queries). -/
def sessionSummaryQueries (st : SysState) : Nat :=
  st.context.previous_queries.length

/-- pySplit always returns its first segment explicitly: the characters up
to the first separator, followed by the remaining segments. -/
theorem pySplit_eq_cons (sep : Char) (s : Str) :
    pySplit sep s = (s.takeWhile (fun c => c != sep)) :: (pySplit sep s).tail := by
  induction s with
  | nil => rfl
  | cons c cs ih =>
    by_cases hc : c = sep
    · subst hc
      simp [pySplit, List.takeWhile_cons]
    · have h2 : (c != sep) = true := by simp [hc]
      simp only [pySplit, List.takeWhile_cons, h2, if_true, if_neg hc, List.tail_cons]
      congr 1
      rw [ih]
      rfl

/-- On any text of the form TOOL: followed by s, the shared extraction
returns the characters of s up to the next colon, stripped. -/
theorem extract_tool_name_eq (s : Str) :
    extract_tool_name ("TOOL:".data ++ s)
      = some (pyStrip (s.takeWhile (fun c => c != ':'))) := by
  have h : pySplit ':' ("TOOL:".data ++ s) = "TOOL".data :: pySplit ':' s := rfl
  unfold extract_tool_name
  rw [h, pySplit_eq_cons ':' s]

/-- A TOOL-shaped classifier output whose extracted name is unknown to the
billing registry or gated off produces exactly the billing refusal. -/
theorem billing_refusal_eq (ctx : UserContext) (q t n : Str)
    (h1 : pyStartsWith ("TOOL:".data) (pyStrip t) = true)
    (h2 : extract_tool_name (pyStrip t) = some n)
    (h3 : BillingAgent.tools.lookup n = none ∨ BillingAgent.is_tool_enabled ctx n = false) :
    BillingAgent.process_query ctx q (Except.ok t) = ⟨billingRefusal, none⟩ := by
  simp only [BillingAgent.process_query, h1, h2, if_true]
  rcases h3 with h3 | h3
  · rw [h3]
  · cases hl : BillingAgent.tools.lookup n with
    | none => rfl
    | some ti => rw [h3]; rfl

/-- The same, for the technical registry and refusal. -/
theorem technical_refusal_eq (ctx : UserContext) (q t n : Str)
    (h1 : pyStartsWith ("TOOL:".data) (pyStrip t) = true)
    (h2 : extract_tool_name (pyStrip t) = some n)
    (h3 : TechnicalAgent.tools.lookup n = none ∨ TechnicalAgent.is_tool_enabled ctx n = false) :
    TechnicalAgent.process_query ctx q (Except.ok t) = ⟨technicalRefusal, none⟩ := by
  simp only [TechnicalAgent.process_query, h1, h2, if_true]
  rcases h3 with h3 | h3
  · rw [h3]
  · cases hl : TechnicalAgent.tools.lookup n with
    | none => rfl
    | some ti => rw [h3]; rfl

/-- The same, for the general registry, whose only check is membership. -/
theorem general_refusal_eq (ctx : UserContext) (q t n : Str)
    (h1 : pyStartsWith ("TOOL:".data) (pyStrip t) = true)
    (h2 : extract_tool_name (pyStrip t) = some n)
    (h3 : GeneralAgent.tools.lookup n = none) :
    GeneralAgent.process_query ctx q (Except.ok t) = ⟨generalRefusal, none⟩ := by
  simp only [GeneralAgent.process_query, h1, h2, if_true]
  rw [h3]

/-- Any tool the billing handler actually invokes was in the registry and
enabled under the current context. -/
theorem billing_invoked_sound (ctx : UserContext) (q : Str) (resp : Except Str Str) :
    (BillingAgent.process_query ctx q resp).invoked = none ∨
    ∃ n, (BillingAgent.process_query ctx q resp).invoked = some n ∧
         (BillingAgent.tools.lookup n).isSome = true ∧
         BillingAgent.is_tool_enabled ctx n = true := by
  cases resp with
  | error e => left; rfl
  | ok t =>
    cases hs : pyStartsWith ("TOOL:".data) (pyStrip t) with
    | false => left; simp [BillingAgent.process_query, hs]
    | true =>
      cases hex : extract_tool_name (pyStrip t) with
      | none => left; simp [BillingAgent.process_query, hs, hex]
      | some n =>
        cases hl : BillingAgent.tools.lookup n with
        | none => left; simp [BillingAgent.process_query, hs, hex, hl]
        | some ti =>
          cases hen : BillingAgent.is_tool_enabled ctx n with
          | false => left; simp [BillingAgent.process_query, hs, hex, hl, hen]
          | true =>
            right
            exact ⟨n, by simp [BillingAgent.process_query, hs, hex, hl, hen],
                   by simp [hl], hen⟩

/-- Any tool the technical handler actually invokes was in the registry and
enabled under the current context. -/
theorem technical_invoked_sound (ctx : UserContext) (q : Str) (resp : Except Str Str) :
    (TechnicalAgent.process_query ctx q resp).invoked = none ∨
    ∃ n, (TechnicalAgent.process_query ctx q resp).invoked = some n ∧
         (TechnicalAgent.tools.lookup n).isSome = true ∧
         TechnicalAgent.is_tool_enabled ctx n = true := by
  cases resp with
  | error e => left; rfl
  | ok t =>
    cases hs : pyStartsWith ("TOOL:".data) (pyStrip t) with
    | false => left; simp [TechnicalAgent.process_query, hs]
    | true =>
      cases hex : extract_tool_name (pyStrip t) with
      | none => left; simp [TechnicalAgent.process_query, hs, hex]
      | some n =>
        cases hl : TechnicalAgent.tools.lookup n with
        | none => left; simp [TechnicalAgent.process_query, hs, hex, hl]
        | some ti =>
          cases hen : TechnicalAgent.is_tool_enabled ctx n with
          | false => left; simp [TechnicalAgent.process_query, hs, hex, hl, hen]
          | true =>
            right
            exact ⟨n, by simp [TechnicalAgent.process_query, hs, hex, hl, hen],
                   by simp [hl], hen⟩

/-- One step preserves handed-off sessions: from an ended state or a state
bound to specialist a, the step stays ended or bound to a, the triage
router does not run, and any specialist response comes from a. -/
theorem step_bound_inv (a : Str) (st : SysState) (i : Str) (r : Except Str Str)
    (h : st.phase = Phase.ended ∨ boundSpecialist st.phase = some a) :
    ((SupportSystem.step st i r).1.phase = Phase.ended ∨
      boundSpecialist (SupportSystem.step st i r).1.phase = some a)
    ∧ (SupportSystem.step st i r).2.ranTriage = false
    ∧ ((SupportSystem.step st i r).2.specialist = none ∨
        ∃ resp, (SupportSystem.step st i r).2.specialist = some (a, resp)) := by
  obtain ⟨ph, ctx⟩ := st
  cases ph with
  | awaitingTriage => simp [boundSpecialist] at h
  | ended => simp [SupportSystem.step]
  | awaitingSpecialist b =>
    have hb : b = a := by simpa [boundSpecialist] using h
    subst hb
    by_cases hq : pyLower (pyStrip i) ∈ quitWords <;>
      simp [SupportSystem.step, hq, boundSpecialist]
  | awaitingContinue b =>
    have hb : b = a := by simpa [boundSpecialist] using h
    subst hb
    by_cases hq : pyLower (pyStrip i) ∈ continueEndWords <;>
      simp [SupportSystem.step, hq, boundSpecialist]

/-- A whole run preserves handed-off sessions, turn by turn. -/
theorem run_bound_inv (a : Str) (steps : List (Str × Except Str Str)) :
    ∀ st : SysState, (st.phase = Phase.ended ∨ boundSpecialist st.phase = some a) →
    (((SupportSystem.run st steps).1.phase = Phase.ended ∨
       boundSpecialist (SupportSystem.run st steps).1.phase = some a)
     ∧ ∀ tr ∈ (SupportSystem.run st steps).2,
         tr.ranTriage = false ∧
         (tr.specialist = none ∨ ∃ resp, tr.specialist = some (a, resp))) := by
  induction steps with
  | nil =>
    intro st h
    exact ⟨h, by simp [SupportSystem.run]⟩
  | cons p rest ih =>
    intro st h
    have hstep := step_bound_inv a st p.1 p.2 h
    have hrec := ih (SupportSystem.step st p.1 p.2).1 hstep.1
    refine ⟨by simpa [SupportSystem.run] using hrec.1, ?_⟩
    intro tr htr
    simp only [SupportSystem.run, List.mem_cons] at htr
    rcases htr with h1 | h2
    · subst h1
      exact hstep.2
    · exact hrec.2 tr h2

/-- One step changes the recorded query count by one exactly when the
triage router ran, and otherwise leaves it unchanged. -/
theorem step_queries_len (st : SysState) (i : Str) (r : Except Str Str) :
    sessionSummaryQueries (SupportSystem.step st i r).1
      = sessionSummaryQueries st
        + (if (SupportSystem.step st i r).2.ranTriage then 1 else 0) := by
  obtain ⟨ph, ctx⟩ := st
  cases ph with
  | awaitingTriage =>
    by_cases hq : pyLower (pyStrip i) ∈ quitWords <;>
      simp [SupportSystem.step, hq, sessionSummaryQueries, TriageAgent.process_query]
  | awaitingSpecialist b =>
    by_cases hq : pyLower (pyStrip i) ∈ quitWords <;>
      simp [SupportSystem.step, hq, sessionSummaryQueries]
  | awaitingContinue b =>
    by_cases hq : pyLower (pyStrip i) ∈ continueEndWords <;>
      simp [SupportSystem.step, hq, sessionSummaryQueries]
  | ended => simp [SupportSystem.step]

/-- Over a whole run, the recorded query count grows by exactly the number
of turns in which the triage router ran. -/
theorem run_queries_len (steps : List (Str × Except Str Str)) :
    ∀ st : SysState,
    sessionSummaryQueries (SupportSystem.run st steps).1
      = sessionSummaryQueries st
        + ((SupportSystem.run st steps).2.countP (fun tr => tr.ranTriage)) := by
  induction steps with
  | nil => intro st; simp [SupportSystem.run]
  | cons p rest ih =>
    intro st
    have h1 := step_queries_len st p.1 p.2
    have h2 := ih (SupportSystem.step st p.1 p.2).1
    simp only [SupportSystem.run, List.countP_cons]
    rw [h2, h1]
    cases hr : (SupportSystem.step st p.1 p.2).2.ranTriage with
    | false => simp
    | true => simp; omega

/-- Claim C1: for every triage invocation the resolved category is one of
billing, technical, general and is recorded in the session context, so the
category is never left undetermined (and the model is a total function, so
triage never raises); and whenever the classifier call fails or its trimmed,
lowercased text is not one of the three tokens, the resolved category is
general. -/
theorem c1_triage_falls_back_to_general (ctx : UserContext) (query : Str)
    (resp : Except Str Str) :
    (TriageAgent.process_query ctx query resp).2.issue_type ∈ validCategories
    ∧ (TriageAgent.process_query ctx query resp).1.issue_type
        = some (TriageAgent.process_query ctx query resp).2.issue_type
    ∧ ((∀ t, resp = Except.ok t → pyLower (pyStrip t) ∉ validCategories) →
        (TriageAgent.process_query ctx query resp).2.issue_type = "general".data) := by
  cases resp with
  | error e =>
    exact ⟨(by decide : ("general".data : Str) ∈ validCategories), rfl, fun _h => rfl⟩
  | ok t =>
    by_cases hv : pyLower (pyStrip t) ∈ validCategories
    · refine ⟨?_, rfl, ?_⟩
      · simp [TriageAgent.process_query, hv]
      · intro h
        exact absurd hv (h t rfl)
    · refine ⟨?_, rfl, ?_⟩
      · simp [TriageAgent.process_query, hv]
        decide
      · intro h
        simp [TriageAgent.process_query, hv]

/-- Witness for C1 at a concrete failing classifier call. -/
theorem c1_triage_falls_back_to_general_witness :
    (TriageAgent.process_query defaultContext ("help".data)
        (Except.error ("boom".data))).2.issue_type = "general".data :=
  (c1_triage_falls_back_to_general defaultContext ("help".data)
      (Except.error ("boom".data))).2.2 (fun _t h => Except.noConfusion h)

/-- Claim C2: the billing process_refund action is listed as available if
and only if the premium flag is true; with the flag true a TOOL colon
process_refund classifier response invokes the refund effect, and with the
flag false no classifier response whatsoever can invoke it. -/
theorem c2_refund_reachable_iff_premium (ctx : UserContext) (q : Str) :
    (("process_refund".data ∈ BillingAgent.get_available_tools ctx)
        ↔ ctx.is_premium_user = true)
    ∧ (ctx.is_premium_user = true →
        BillingAgent.process_query ctx q (Except.ok ("TOOL:process_refund".data))
          = ⟨"Used process_refund: Your refund has been processed successfully. It will reflect in your account within 5-7 business days.".data,
             some ("process_refund".data)⟩)
    ∧ (ctx.is_premium_user = false → ∀ resp : Except Str Str,
        (BillingAgent.process_query ctx q resp).invoked ≠ some ("process_refund".data)) := by
  refine ⟨?_, ?_, ?_⟩
  · unfold BillingAgent.get_available_tools
    rw [List.mem_filter]
    exact ⟨fun h => h.2, fun h => ⟨by decide, h⟩⟩
  · intro hp
    have he : BillingAgent.process_query ctx q (Except.ok ("TOOL:process_refund".data))
        = if BillingAgent.is_tool_enabled ctx ("process_refund".data) then
            ⟨"Used process_refund: Your refund has been processed successfully. It will reflect in your account within 5-7 business days.".data,
             some ("process_refund".data)⟩
          else ⟨billingRefusal, none⟩ := rfl
    rw [he]
    simp [BillingAgent.is_tool_enabled, hp]
  · intro hp resp hcon
    rcases billing_invoked_sound ctx q resp with h | ⟨n, hn, _, hen⟩
    · rw [h] at hcon
      exact Option.noConfusion hcon
    · rw [hn] at hcon
      have hne : n = "process_refund".data := Option.some.inj hcon
      subst hne
      simp [BillingAgent.is_tool_enabled, hp] at hen

/-- Witness for C2 with a concrete premium context. -/
theorem c2_refund_reachable_iff_premium_witness :
    BillingAgent.process_query ⟨"Aamna".data, true, none, []⟩
        ("I was charged twice this month".data)
        (Except.ok ("TOOL:process_refund".data))
      = ⟨"Used process_refund: Your refund has been processed successfully. It will reflect in your account within 5-7 business days.".data,
         some ("process_refund".data)⟩ :=
  (c2_refund_reachable_iff_premium ⟨"Aamna".data, true, none, []⟩
      ("I was charged twice this month".data)).2.1 rfl

/-- Claim C3: the technical restart_service action is listed as available
if and only if the current category equals technical; in that case a TOOL
colon restart_service response invokes the restart effect, and for any other
category value, including unset, the same response yields the technical
refusal message and no classifier response can invoke the restart effect. -/
theorem c3_restart_reachable_iff_technical (ctx : UserContext) (q : Str) :
    (("restart_service".data ∈ TechnicalAgent.get_available_tools ctx)
        ↔ ctx.issue_type = some ("technical".data))
    ∧ (ctx.issue_type = some ("technical".data) →
        TechnicalAgent.process_query ctx q (Except.ok ("TOOL:restart_service".data))
          = ⟨"Used restart_service: The service has been restarted successfully. Please allow a few minutes for it to become fully operational.".data,
             some ("restart_service".data)⟩)
    ∧ (ctx.issue_type ≠ some ("technical".data) →
        (TechnicalAgent.process_query ctx q (Except.ok ("TOOL:restart_service".data))
            = ⟨technicalRefusal, none⟩
         ∧ ∀ resp : Except Str Str,
             (TechnicalAgent.process_query ctx q resp).invoked
               ≠ some ("restart_service".data))) := by
  refine ⟨?_, ?_, ?_⟩
  · unfold TechnicalAgent.get_available_tools
    rw [List.mem_filter]
    constructor
    · intro h
      exact of_decide_eq_true h.2
    · intro h
      exact ⟨by decide, decide_eq_true h⟩
  · intro hp
    have he : TechnicalAgent.process_query ctx q (Except.ok ("TOOL:restart_service".data))
        = if TechnicalAgent.is_tool_enabled ctx ("restart_service".data) then
            ⟨"Used restart_service: The service has been restarted successfully. Please allow a few minutes for it to become fully operational.".data,
             some ("restart_service".data)⟩
          else ⟨technicalRefusal, none⟩ := rfl
    rw [he]
    simp [TechnicalAgent.is_tool_enabled, hp]
  · intro hp
    constructor
    · exact technical_refusal_eq ctx q ("TOOL:restart_service".data)
        ("restart_service".data) rfl rfl (Or.inr (decide_eq_false hp))
    · intro resp hcon
      rcases technical_invoked_sound ctx q resp with h | ⟨n, hn, _, hen⟩
      · rw [h] at hcon
        exact Option.noConfusion hcon
      · rw [hn] at hcon
        have hne : n = "restart_service".data := Option.some.inj hcon
        subst hne
        have hd : decide (ctx.issue_type = some ("technical".data)) = true := hen
        exact hp (of_decide_eq_true hd)

/-- Witness for C3 with a concrete technical-category context. -/
theorem c3_restart_reachable_iff_technical_witness :
    TechnicalAgent.process_query ⟨"Aamna".data, true, some ("technical".data), []⟩
        ("my service is down".data) (Except.ok ("TOOL:restart_service".data))
      = ⟨"Used restart_service: The service has been restarted successfully. Please allow a few minutes for it to become fully operational.".data,
         some ("restart_service".data)⟩ :=
  (c3_restart_reachable_iff_technical
      ⟨"Aamna".data, true, some ("technical".data), []⟩
      ("my service is down".data)).2.1 rfl

/-- Claim C4: for every handler invocation whose classifier output starts
with the TOOL marker and whose extracted action name is unknown to the
handler registry or gated off under the current context, the handler returns
exactly its fixed refusal string and no simulated effect is invoked. -/
theorem c4_unknown_or_gated_tool_refused (ctx : UserContext) (q t n : Str)
    (h1 : pyStartsWith ("TOOL:".data) (pyStrip t) = true)
    (h2 : extract_tool_name (pyStrip t) = some n) :
    ((BillingAgent.tools.lookup n = none ∨ BillingAgent.is_tool_enabled ctx n = false) →
        BillingAgent.process_query ctx q (Except.ok t) = ⟨billingRefusal, none⟩)
    ∧ ((TechnicalAgent.tools.lookup n = none ∨ TechnicalAgent.is_tool_enabled ctx n = false) →
        TechnicalAgent.process_query ctx q (Except.ok t) = ⟨technicalRefusal, none⟩)
    ∧ (GeneralAgent.tools.lookup n = none →
        GeneralAgent.process_query ctx q (Except.ok t) = ⟨generalRefusal, none⟩) :=
  ⟨billing_refusal_eq ctx q t n h1 h2,
   technical_refusal_eq ctx q t n h1 h2,
   general_refusal_eq ctx q t n h1 h2⟩

/-- Witness for C4: a gated-off billing refund and an unknown general
action both produce the fixed refusal. -/
theorem c4_unknown_or_gated_tool_refused_witness :
    BillingAgent.process_query defaultContext ("q".data)
        (Except.ok ("TOOL:process_refund".data)) = ⟨billingRefusal, none⟩
    ∧ GeneralAgent.process_query defaultContext ("q".data)
        (Except.ok ("TOOL:frobnicate".data)) = ⟨generalRefusal, none⟩ :=
  ⟨(c4_unknown_or_gated_tool_refused defaultContext ("q".data)
      ("TOOL:process_refund".data) ("process_refund".data) rfl rfl).1 (Or.inr rfl),
   (c4_unknown_or_gated_tool_refused defaultContext ("q".data)
      ("TOOL:frobnicate".data) ("frobnicate".data) rfl rfl).2.2 rfl⟩

/-- Counterexample to C5 as stated: on the output TOOL colon a colon b the
extracted name is a, not the entire text a colon b after the first colon. -/
theorem c5_counterexample_middle_segment :
    extract_tool_name ("TOOL:a:b".data) = some ("a".data)
    ∧ ("a".data : Str) ≠ "a:b".data :=
  ⟨rfl, by decide⟩

/-- Claim C5 (amended): for every classifier output starting with the TOOL
marker, the extracted action name equals the text strictly between the first
colon and the following colon (or the end of the output when there is no
second colon), trimmed of surrounding whitespace. -/
theorem c5_extracted_name_is_first_segment (s : Str) :
    extract_tool_name ("TOOL:".data ++ s)
      = some (pyStrip (s.takeWhile (fun c => c != ':'))) :=
  extract_tool_name_eq s

/-- Claim C9: on every output starting with the TOOL marker, including the
degenerate bare TOOL marker, the colon split has at least two parts so the
index one is defined and extraction succeeds; the bare marker extracts the
empty name, which falls through to the refusal branch of all three handlers
rather than raising. -/
theorem c9_tool_extraction_total (s : Str) (ctx : UserContext) (q : Str) :
    pyStartsWith ("TOOL:".data) ("TOOL:".data ++ s) = true
    ∧ 2 ≤ (pySplit ':' ("TOOL:".data ++ s)).length
    ∧ (extract_tool_name ("TOOL:".data ++ s)).isSome = true
    ∧ BillingAgent.process_query ctx q (Except.ok ("TOOL:".data)) = ⟨billingRefusal, none⟩
    ∧ TechnicalAgent.process_query ctx q (Except.ok ("TOOL:".data)) = ⟨technicalRefusal, none⟩
    ∧ GeneralAgent.process_query ctx q (Except.ok ("TOOL:".data)) = ⟨generalRefusal, none⟩ := by
  refine ⟨rfl, ?_, ?_, rfl, rfl, rfl⟩
  · have h : pySplit ':' ("TOOL:".data ++ s) = "TOOL".data :: pySplit ':' s := rfl
    rw [h, pySplit_eq_cons ':' s]
    simp
  · rw [extract_tool_name_eq s]
    rfl

/-- Claim C6: in every session run, once a specialist is bound the session
never returns to the awaiting-triage state, every later turn that runs a
handler runs the same bound specialist, and the triage router never runs
again. -/
theorem c6_handoff_is_permanent (a : Str) (st : SysState)
    (steps : List (Str × Except Str Str))
    (h : boundSpecialist st.phase = some a) :
    (SupportSystem.run st steps).1.phase ≠ Phase.awaitingTriage
    ∧ ((SupportSystem.run st steps).1.phase = Phase.ended ∨
        boundSpecialist (SupportSystem.run st steps).1.phase = some a)
    ∧ ∀ tr ∈ (SupportSystem.run st steps).2,
        tr.ranTriage = false
        ∧ (tr.specialist = none ∨ ∃ resp, tr.specialist = some (a, resp)) := by
  have hr := run_bound_inv a steps st (Or.inr h)
  refine ⟨?_, hr.1, hr.2⟩
  rcases hr.1 with h1 | h1
  · rw [h1]
    simp
  · intro hc
    rw [hc] at h1
    simp [boundSpecialist] at h1

/-- Witness for C6 on a concrete one-turn run bound to billing. -/
theorem c6_handoff_is_permanent_witness :
    (SupportSystem.run ⟨Phase.awaitingSpecialist ("billing".data), defaultContext⟩
        [(("hi".data), Except.ok ("hello".data))]).1.phase ≠ Phase.awaitingTriage :=
  (c6_handoff_is_permanent ("billing".data)
      ⟨Phase.awaitingSpecialist ("billing".data), defaultContext⟩
      [(("hi".data), Except.ok ("hello".data))] rfl).1

/-- Claim C7 (amended): in the awaiting-specialist state, every user text
whose stripped, lowercased form is not one of quit, exit, bye runs the bound
specialist handler, emits its response, and moves to awaiting-continue; the
three quit words instead end the session without running the handler, which
is the one correction to the claim as stated. -/
theorem c7_specialist_turn_unless_quit (a : Str) (st : SysState) (i : Str)
    (r : Except Str Str)
    (hph : st.phase = Phase.awaitingSpecialist a)
    (hq : pyLower (pyStrip i) ∉ quitWords) :
    SupportSystem.step st i r
      = (⟨Phase.awaitingContinue a, st.context⟩,
         ⟨false, some (a, (agentProcess a st.context (pyStrip i) r).response)⟩) := by
  obtain ⟨ph, ctx⟩ := st
  dsimp only at hph
  subst hph
  simp [SupportSystem.step, hq]

/-- Witness for C7 on a concrete non-quit input. -/
theorem c7_specialist_turn_unless_quit_witness :
    SupportSystem.step ⟨Phase.awaitingSpecialist ("billing".data), defaultContext⟩
        ("hi".data) (Except.ok ("hello".data))
      = (⟨Phase.awaitingContinue ("billing".data), defaultContext⟩,
         ⟨false, some (("billing".data),
           (agentProcess ("billing".data) defaultContext (pyStrip ("hi".data))
             (Except.ok ("hello".data))).response)⟩) :=
  c7_specialist_turn_unless_quit ("billing".data)
    ⟨Phase.awaitingSpecialist ("billing".data), defaultContext⟩
    ("hi".data) (Except.ok ("hello".data)) rfl (by decide)

/-- Counterexample to C7 as stated: the input quit in the
awaiting-specialist state ends the session, with no handler run, no response
emitted, and a final phase that is not awaiting-continue. -/
theorem c7_counterexample_quit_bypasses_handler :
    SupportSystem.step ⟨Phase.awaitingSpecialist ("billing".data), defaultContext⟩
        ("quit".data) (Except.ok ("hello".data))
      = (⟨Phase.ended, defaultContext⟩, ⟨false, none⟩)
    ∧ Phase.ended ≠ Phase.awaitingContinue ("billing".data) :=
  ⟨rfl, by decide⟩

/-- Claim C8: at session end the query count printed in the summary equals
exactly the number of turns in which the triage router ran (specialist-stage
queries are not counted); and the input quit on the very first turn ends the
session with zero recorded queries. -/
theorem c8_summary_counts_only_triage_queries (name : Str) (premium : Bool)
    (steps : List (Str × Except Str Str)) :
    sessionSummaryQueries (SupportSystem.run (initialState name premium) steps).1
      = ((SupportSystem.run (initialState name premium) steps).2.countP
          (fun tr => tr.ranTriage))
    ∧ SupportSystem.run (initialState name premium) [(("quit".data), Except.ok [])]
        = (⟨Phase.ended, ⟨name, premium, none, []⟩⟩, [⟨false, none⟩]) := by
  constructor
  · have h := run_queries_len steps (initialState name premium)
    simpa [initialState, sessionSummaryQueries] using h
  · rfl

/-- Claim C10: a step in which the triage router did not run, which is
every specialist or continue or quit turn, leaves the session context
unchanged: name, premium flag, current category and prior-queries list are
all preserved; only triage turns mutate the session state. -/
theorem c10_only_triage_mutates_context (st : SysState) (i : Str)
    (r : Except Str Str)
    (h : (SupportSystem.step st i r).2.ranTriage = false) :
    (SupportSystem.step st i r).1.context = st.context
    ∧ (SupportSystem.step st i r).1.context.name = st.context.name
    ∧ (SupportSystem.step st i r).1.context.is_premium_user = st.context.is_premium_user
    ∧ (SupportSystem.step st i r).1.context.issue_type = st.context.issue_type
    ∧ (SupportSystem.step st i r).1.context.previous_queries = st.context.previous_queries := by
  have hc : (SupportSystem.step st i r).1.context = st.context := by
    obtain ⟨ph, ctx⟩ := st
    cases ph with
    | awaitingTriage =>
      by_cases hq : pyLower (pyStrip i) ∈ quitWords
      · simp [SupportSystem.step, hq]
      · simp [SupportSystem.step, hq] at h
    | awaitingSpecialist b =>
      by_cases hq : pyLower (pyStrip i) ∈ quitWords <;> simp [SupportSystem.step, hq]
    | awaitingContinue b =>
      by_cases hq : pyLower (pyStrip i) ∈ continueEndWords <;> simp [SupportSystem.step, hq]
    | ended => simp [SupportSystem.step]
  exact ⟨hc, by rw [hc], by rw [hc], by rw [hc], by rw [hc]⟩

/-- Witness for C10 on a concrete specialist turn. -/
theorem c10_only_triage_mutates_context_witness :
    (SupportSystem.step ⟨Phase.awaitingSpecialist ("billing".data), defaultContext⟩
        ("hi".data) (Except.ok ("x".data))).1.context = defaultContext :=
  (c10_only_triage_mutates_context
      ⟨Phase.awaitingSpecialist ("billing".data), defaultContext⟩
      ("hi".data) (Except.ok ("x".data)) (by decide)).1
